import Mathlib

/-!
Verification of the TerminalFlux orchestration and caching layer.

This file shallowly embeds the parts of the repository that the claims
concern:

* `src/utils/assetPaths.js` — the artifact path resolver (`getAssetPath`,
  `getAssetUrl`);
* `src/services/sessionService.js` together with `src/database/schema.sql`
  — the session store (sessions and assets tables, filesystem tree);
* `src/server.js` — the generation endpoints (`/api/generate-texture`,
  `/api/generate-character`, `/api/generate-pose`, `/api/generate-view`,
  `/api/generate-3d-model`) over an opaque remote provider;
* `src/unnamed/part_003` — the client pipeline orchestrator
  (`generateAllAssets`, phases 1–4).

Modelling conventions, fixed once here:

* JavaScript strings that may be `null`/`undefined` are `Option String`;
  a bare string field whose absence JavaScript represents by
  `undefined`/`""` (and tests with truthiness) is a `String` with `""`
  standing for the absent value, mirroring `if (s)` and `a || b`.
* The filesystem is the set (a list, membership-checked) of existing file
  paths; `existsSync` is membership, `writeFileSync`/`downloadFile` adds
  the path, `rmSync(dir, {recursive:true})` removes every path under the
  directory prefix.
* Node's `path.join` (used for storage paths) is modelled faithfully for
  the relative paths occurring here: the non-falsy components are joined
  with "/" and the result is normalized — the string is split on "/",
  empty and "." segments are dropped, ".." pops the preceding segment
  (or is kept when there is none), and the segments are rejoined. The
  URL builder `getAssetUrl` instead uses the plain `parts.join('/')` of
  the source, with no normalization.
* SQLite semantics are modelled as documented by SQLite itself:
  - in a `UNIQUE` index, NULL values are distinct from every value
    including other NULLs, so a row whose `pose` or `view_name` is NULL
    never conflicts with any row and `INSERT OR REPLACE` plainly inserts;
  - foreign-key enforcement is OFF unless `PRAGMA foreign_keys = ON` is
    executed on the connection; `src/database/db.js` never executes it,
    so the `ON DELETE CASCADE` declared in `schema.sql` is not enforced
    at run time and deleting a session leaves its asset rows in place.
* Remote providers are opaque: each endpoint takes the provider's
  response as a parameter and reports (in its result record) whether the
  provider was invoked at all.
* Prompt string literals (the long view/pose prompt texts in `server.js`)
  are abbreviated to short tags: only their presence or absence in the
  lookup tables is observable in the modelled control flow, never their
  content, which is passed verbatim to the opaque provider.
-/

namespace TerminalFlux

/-! ## Artifact path resolver (`src/utils/assetPaths.js`) -/

/-- The assets root, `join(dirname(__dirname), 'assets')` in the source;
an opaque base directory for the model. -/
def ASSETS_DIR : String := "ASSETS"

/-- JavaScript truthiness of a nullable string: `null`, `undefined` and
`""` are falsy. -/
def truthy : Option String → Bool
  | none => false
  | some s => s != ""

/-- The conditional `if (x) parts.push(x)` of `assetPaths.js`: a falsy
component contributes nothing to the parts array. -/
def optPart : Option String → List String
  | none => []
  | some s => if s = "" then [] else [s]

/-- The plain `'/'`-interposition join (`parts.join('/')`), used by the
URL builder and as the final rejoin step of path normalization. -/
def joinParts : List String → String
  | [] => ""
  | [p] => p
  | p :: rest => p ++ "/" ++ joinParts rest

/-- Split a character list at every `'/'` (keeping empty segments, as
splitting a string does). -/
def splitSlashChars : List Char → List (List Char)
  | [] => [[]]
  | c :: cs =>
    if c = '/' then [] :: splitSlashChars cs
    else
      match splitSlashChars cs with
      | s :: rest => (c :: s) :: rest
      | [] => [[c]]

/-- The `'/'`-separated segments of a string. -/
def pathSegs (s : String) : List String :=
  (splitSlashChars s.data).map (fun l => ⟨l⟩)

/-- One step of Node's path normalization over a (reversed) segment
stack: empty and `"."` segments are dropped, `".."` pops the previous
segment when one is available (and is kept when the stack is empty or
already ends in `".."`, as in a relative path), anything else is
pushed. -/
def normStep (acc : List String) (seg : String) : List String :=
  if seg = "" ∨ seg = "." then acc
  else if seg = ".." then
    match acc with
    | [] => [".."]
    | top :: rest => if top = ".." then ".." :: top :: rest else rest
  else seg :: acc

/-- Rejoin normalized segments: an empty normalized list is the
relative path `"."`. -/
def rejoinSegs (normed : List String) : String :=
  if normed = [] then "." else joinParts normed

/-- Node's `path.join` on the relative paths used here: join the
arguments with "/", split into segments, normalize (drop empty/`"."`,
resolve `".."`), and rejoin; an empty result is `"."`. -/
def pathJoin (parts : List String) : String :=
  rejoinSegs ((((parts.map pathSegs).flatten).foldl normStep []).reverse)

/-- `getAssetPath(sessionId, assetType, pose, fileName)` from
`src/utils/assetPaths.js` lines 19–37: parts = assets root, then the
session id if truthy, then the asset type unconditionally, then the pose
and file name if truthy, combined by `path.join` (normalization
included). -/
def getAssetPath (sessionId : Option String) (assetType : String)
    (pose : Option String) (fileName : Option String) : String :=
  pathJoin ([ASSETS_DIR] ++ optPart sessionId ++ [assetType]
    ++ optPart pose ++ optPart fileName)

/-- `getAssetUrl(sessionId, assetType, pose, fileName)` from
`src/utils/assetPaths.js` lines 47–65: same parts under the `/assets`
URL root, joined by "/". -/
def getAssetUrl (sessionId : Option String) (assetType : String)
    (pose : Option String) (fileName : Option String) : String :=
  joinParts (["/assets"] ++ optPart sessionId ++ [assetType]
    ++ optPart pose ++ optPart fileName)

/-! ## Data model (`src/database/schema.sql`) -/

/-- One row of the `assets` table (the autoincrement `id` and
`created_at` columns carry no information used by any claim; insertion
order of the list plays the role of both). -/
structure AssetRow where
  sessionId : String
  assetType : String
  pose : Option String
  viewName : Option String
  filePath : String
  remoteUrl : Option String
  requestId : Option String
deriving DecidableEq, Repr

/-- One row of the `sessions` table. -/
structure SessionRow where
  id : String
  characterDescription : String
  modelType : String
  playerMode : Int
  createdAt : String
  updatedAt : String
  lastAccessed : String
  gameState : Option String
  metadata : Option String
deriving DecidableEq, Repr

/-- The shared mutable state: the two database tables and the on-disk
artifact tree (as the set of existing file paths). -/
structure SysState where
  sessions : List SessionRow
  assets : List AssetRow
  fs : List String
deriving DecidableEq, Repr

/-- `existsSync` on the modelled filesystem. -/
def fsHas (st : SysState) (p : String) : Bool := st.fs.contains p

/-- A file write (`downloadFile` / `writeFileSync`): the path exists
afterwards. -/
def fsWrite (st : SysState) (p : String) : SysState :=
  { st with fs := p :: st.fs }

/-! ## Session store (`src/services/sessionService.js`) -/

/-- The metadata argument of `recordAsset` with its destructuring
defaults (`pose = null, viewName = null, remoteUrl = null,
requestId = null`). -/
structure AssetMeta where
  pose : Option String := none
  viewName : Option String := none
  remoteUrl : Option String := none
  requestId : Option String := none
deriving DecidableEq, Repr

/-- Whether two rows conflict on the `UNIQUE(session_id, asset_type,
pose, view_name)` index of `schema.sql`. Per SQLite, a NULL in an
indexed column makes the row distinct from every other row, so rows
conflict only when all four columns are pairwise equal AND the two
nullable columns are non-NULL on both sides. -/
def uniqueConflict (a b : AssetRow) : Bool :=
  a.sessionId == b.sessionId && a.assetType == b.assetType &&
  (match a.pose, b.pose with
   | some x, some y => x == y
   | _, _ => false) &&
  (match a.viewName, b.viewName with
   | some x, some y => x == y
   | _, _ => false)

/-- `SessionService.recordAsset` (lines 165–178): `INSERT OR REPLACE
INTO assets ...` — delete the rows the new row conflicts with (per the
unique index), then insert the new row. -/
def recordAsset (sessionId assetType filePath : String) (m : AssetMeta)
    (st : SysState) : SysState :=
  let row : AssetRow :=
    { sessionId := sessionId, assetType := assetType, pose := m.pose,
      viewName := m.viewName, filePath := filePath,
      remoteUrl := m.remoteUrl, requestId := m.requestId }
  { st with assets := st.assets.filter (fun r => !uniqueConflict r row) ++ [row] }

/-- `SessionService.getSession` (lines 44–64): SELECT the row; when it is
found, UPDATE its `last_accessed` to the current time. The returned row
is the one read by the SELECT (before the bump). -/
def getSession (sessionId now : String) (st : SysState) :
    Option SessionRow × SysState :=
  match st.sessions.find? (fun r => r.id == sessionId) with
  | some r =>
    (some r,
     { st with sessions := st.sessions.map (fun q =>
         if q.id == sessionId then { q with lastAccessed := now } else q) })
  | none => (none, st)

/-- `SessionService.sessionExists` (lines 69–80): a bare
`SELECT id FROM sessions WHERE id = ?`; no UPDATE statement runs, the
state is untouched. -/
def sessionExists (sessionId : String) (st : SysState) : Bool × SysState :=
  ((st.sessions.find? (fun r => r.id == sessionId)).isSome, st)

/-- `SessionService.updateSession` (lines 85–113). The `updates` object
is modelled by two options, `none` standing for an absent
(`undefined`) field, mirroring the `!== undefined` tests. When neither
field is present the function returns before building any SQL statement;
otherwise it UPDATEs the given fields plus `updated_at`. The boolean in
the result records whether a database statement was executed. -/
def updateSession (sessionId : String) (gameState metadata : Option String)
    (now : String) (st : SysState) : Bool × SysState :=
  if gameState.isNone && metadata.isNone then
    (false, st)
  else
    (true,
     { st with sessions := st.sessions.map (fun q =>
         if q.id == sessionId then
           { q with
             gameState := match gameState with
               | some g => some g
               | none => q.gameState,
             metadata := match metadata with
               | some m => some m
               | none => q.metadata,
             updatedAt := now }
         else q) })

/-- The directory prefix test for a session's artifact tree:
`rmSync(join(assetsDir, sessionId), {recursive:true})` removes exactly
the files lying under `ASSETS/<sessionId>/`. -/
def underSessionDir (sessionId p : String) : Bool :=
  (ASSETS_DIR ++ "/" ++ sessionId ++ "/").data.isPrefixOf p.data

/-- `SessionService.deleteSession` (lines 143–160): `DELETE FROM sessions
WHERE id = ?`, then remove the session's directory tree. The `assets`
rows are NOT touched: `schema.sql` declares
`FOREIGN KEY ... ON DELETE CASCADE`, but SQLite only enforces foreign
keys after `PRAGMA foreign_keys = ON`, which `src/database/db.js` never
executes, so no cascade runs on the live connection. -/
def deleteSession (sessionId : String) (st : SysState) : SysState :=
  { st with
    sessions := st.sessions.filter (fun r => r.id != sessionId),
    fs := st.fs.filter (fun p => !underSessionDir sessionId p) }

/-- The optional-filter clause of the asset queries: `pose !== null`
appends `AND pose = ?`; SQL `=` never matches a NULL column value. -/
def optFilter (param : Option String) (col : Option String) : Bool :=
  match param with
  | none => true
  | some p => col == some p

/-- `SessionService.assetExists` (lines 199–222): SELECT the first row
matching the filters, then validate it against the filesystem — a stale
row whose file is gone reports absent (`null`). -/
def assetExists (sessionId assetType : String) (pose viewName : Option String)
    (st : SysState) : Option String :=
  match st.assets.find? (fun r =>
      r.sessionId == sessionId && r.assetType == assetType &&
      optFilter pose r.pose && optFilter viewName r.viewName) with
  | some r => if fsHas st r.filePath then some r.filePath else none
  | none => none

/-- `SessionService.getAssetWithRemoteUrl` (lines 227–250): like
`assetExists` but returning the whole row (with its stored remote
URL). -/
def getAssetWithRemoteUrl (sessionId assetType : String)
    (pose viewName : Option String) (st : SysState) : Option AssetRow :=
  match st.assets.find? (fun r =>
      r.sessionId == sessionId && r.assetType == assetType &&
      optFilter pose r.pose && optFilter viewName r.viewName) with
  | some r => if fsHas st r.filePath then some r else none
  | none => none

/-- `SessionService.getSessionAssets` (lines 183–194): a bare SELECT of
the session's asset rows; the state is untouched. -/
def getSessionAssets (sessionId : String) (st : SysState) :
    List AssetRow × SysState :=
  (st.assets.filter (fun r => r.sessionId == sessionId), st)

/-! ## Generation endpoints (`src/server.js`)

Each endpoint is a function of the request fields, the opaque remote
provider's response for this call, and the system state. Its result
carries the JSON response, the new state, whether the provider was
invoked, and (for the 3D endpoint) the image list actually sent. -/

/-- What `fal.subscribe` returns for the image operations:
`ok = false` models a thrown transport/provider error, `images` is
`result.data.images` (a list of remote URLs). -/
structure ProviderImage where
  ok : Bool
  images : List String := []
  requestId : String := ""
  errMsg : String := ""
deriving DecidableEq, Repr

/-- What `fal.subscribe` returns for the mesh operations: `meshUrl` is
`result.data.model_mesh.url` when present. -/
structure ProviderMesh where
  ok : Bool
  meshUrl : Option String := none
  requestId : String := ""
  errMsg : String := ""
deriving DecidableEq, Repr

/-- The JSON response envelope of the generation endpoints; `""` stands
for a field the response does not carry. -/
structure ApiResp where
  success : Bool
  imageUrl : String := ""
  remoteUrl : String := ""
  modelUrl : String := ""
  requestId : String := ""
  cached : Bool := false
  error : String := ""
  pose : String := ""
  viewName : String := ""
deriving DecidableEq, Repr

/-- Result of running one endpoint handler. -/
structure EndpointResult where
  resp : ApiResp
  st : SysState
  providerCalled : Bool
  sentImages : Option (List String) := none
deriving Repr

/-- The `http://localhost:8081` absolute-URL fallback used by the cached
branches when no stored remote URL is available. -/
def localFallback (u : String) : String := "http://localhost:8081" ++ u

/-- The cached branches' remote-URL selection: the stored `remote_url` if
a matching validated row has a truthy one, else the localhost
fallback. -/
def cachedRemoteUrl (sessionId : Option String) (assetType : String)
    (pose viewName : Option String) (url : String) (st : SysState) : String :=
  if truthy sessionId then
    match getAssetWithRemoteUrl (sessionId.getD "") assetType pose viewName st with
    | some row =>
      match row.remoteUrl with
      | some u => if u != "" then u else localFallback url
      | none => localFallback url
    | none => localFallback url
  else localFallback url

/-- `/api/generate-texture` (`server.js` lines 118–205). -/
def generateTexture (sessionId : Option String) (prov : ProviderImage)
    (st : SysState) : EndpointResult :=
  let groundPath := getAssetPath sessionId "ground" none (some "ground-texture.png")
  let groundUrl := getAssetUrl sessionId "ground" none (some "ground-texture.png")
  if fsHas st groundPath then
    { resp := { success := true, imageUrl := groundUrl,
                requestId := "cached", cached := true },
      st := st, providerCalled := false }
  else if prov.ok then
    match prov.images with
    | [] =>
      { resp := { success := false, error := "No images returned from API" },
        st := st, providerCalled := true }
    | imageUrl :: _ =>
      let st1 := fsWrite st groundPath
      let st2 :=
        if truthy sessionId then
          recordAsset (sessionId.getD "") "ground" groundPath
            { remoteUrl := some imageUrl, requestId := some prov.requestId } st1
        else st1
      { resp := { success := true, imageUrl := groundUrl,
                  requestId := prov.requestId, cached := false },
        st := st2, providerCalled := true }
  else
    { resp := { success := false, error := prov.errMsg },
      st := st, providerCalled := true }

/-- `/api/generate-character` (`server.js` lines 208–313); writes the
`front.png` of the requested pose. -/
def generateCharacter (pose : String) (sessionId : Option String)
    (prov : ProviderImage) (st : SysState) : EndpointResult :=
  let frontPath := getAssetPath sessionId "character" (some pose) (some "front.png")
  let frontUrl := getAssetUrl sessionId "character" (some pose) (some "front.png")
  if fsHas st frontPath then
    { resp := { success := true, imageUrl := frontUrl,
                remoteUrl := cachedRemoteUrl sessionId "character" (some pose)
                  (some "front") frontUrl st,
                requestId := "cached", cached := true },
      st := st, providerCalled := false }
  else if prov.ok then
    match prov.images with
    | [] =>
      { resp := { success := false, error := "No images returned from API" },
        st := st, providerCalled := true }
    | imageUrl :: _ =>
      let st1 := fsWrite st frontPath
      let st2 :=
        if truthy sessionId then
          recordAsset (sessionId.getD "") "character" frontPath
            { pose := some pose, viewName := some "front",
              remoteUrl := some imageUrl, requestId := some prov.requestId } st1
        else st1
      { resp := { success := true, imageUrl := frontUrl, remoteUrl := imageUrl,
                  requestId := prov.requestId, cached := false },
        st := st2, providerCalled := true }
  else
    { resp := { success := false, error := prov.errMsg },
      st := st, providerCalled := true }

/-- The `posePrompts` table of `/api/generate-pose` (`server.js` lines
451–454): prompts exist exactly for `walking` and `shooting` (texts
abbreviated; only definedness is observable in the model). -/
def posePrompts (targetPose : String) : Option String :=
  if targetPose = "walking" then some "walking-pose-prompt"
  else if targetPose = "shooting" then some "shooting-pose-prompt"
  else none

/-- `/api/generate-pose` (`server.js` lines 391–535). Order of checks as
in the source: cached-artifact short-circuit first, then the idle-front
prerequisite (session path, falling back to the legacy path), then the
pose-prompt lookup, then `readFileSync` of the session idle path inside
the `try` (which throws, yielding a 500 without any provider call, when
only the legacy idle exists), then the provider call. -/
def generatePose (targetPose : String) (sessionId : Option String)
    (prov : ProviderImage) (st : SysState) : EndpointResult :=
  let targetPath := getAssetPath sessionId "character" (some targetPose) (some "front.png")
  let targetUrl := getAssetUrl sessionId "character" (some targetPose) (some "front.png")
  let idleFrontPath := getAssetPath sessionId "character" (some "idle") (some "front.png")
  let legacyIdlePath := getAssetPath none "character" (some "idle") (some "front.png")
  if fsHas st targetPath then
    { resp := { success := true, pose := targetPose, imageUrl := targetUrl,
                remoteUrl := cachedRemoteUrl sessionId "character"
                  (some targetPose) (some "front") targetUrl st,
                cached := true },
      st := st, providerCalled := false }
  else if !fsHas st idleFrontPath && !fsHas st legacyIdlePath then
    { resp := { success := false,
                error := "Idle pose not found. Generate idle pose first." },
      st := st, providerCalled := false }
  else
    match posePrompts targetPose with
    | none =>
      { resp := { success := false, error := "Unknown pose: " ++ targetPose },
        st := st, providerCalled := false }
    | some _ =>
      if !fsHas st idleFrontPath then
        -- readFileSync(idleFrontPath) throws before fal.subscribe runs
        { resp := { success := false, error := "ENOENT" },
          st := st, providerCalled := false }
      else if prov.ok then
        match prov.images with
        | [] =>
          { resp := { success := false, error := "No images returned from API" },
            st := st, providerCalled := true }
        | imageUrl :: _ =>
          let st1 := fsWrite st targetPath
          let st2 :=
            if truthy sessionId then
              recordAsset (sessionId.getD "") "character" targetPath
                { pose := some targetPose, viewName := some "front",
                  remoteUrl := some imageUrl, requestId := some prov.requestId } st1
            else st1
          { resp := { success := true, pose := targetPose, imageUrl := targetUrl,
                      remoteUrl := imageUrl, cached := false },
            st := st2, providerCalled := true }
      else
        { resp := { success := false, error := prov.errMsg },
          st := st, providerCalled := true }

/-- The five non-front view names, in the order the orchestrator uses. -/
def viewOrder : List String := ["back", "left", "right", "angle_30", "angle_-30"]

/-- The nested `viewPrompts` table of `/api/generate-view` (`server.js`
lines 582–604): one entry per pose in {idle, walking, shooting} and per
view in `viewOrder` (texts abbreviated; only definedness is observable
in the model). -/
def viewPrompts (pose viewName : String) : Option String :=
  if (pose = "idle" || pose = "walking" || pose = "shooting")
      && viewOrder.contains viewName then
    some (pose ++ "-" ++ viewName ++ "-view-prompt")
  else none

/-- `/api/generate-view` (`server.js` lines 538–675): cached-artifact
short-circuit first, then the `viewPrompts[pose]?.[viewName]` lookup
(an unknown pair is a 400 with no provider call), then the provider
call. -/
def generateView (pose viewName : String) (sessionId : Option String)
    (prov : ProviderImage) (st : SysState) : EndpointResult :=
  let viewPath := getAssetPath sessionId "character" (some pose) (some (viewName ++ ".png"))
  let viewUrl := getAssetUrl sessionId "character" (some pose) (some (viewName ++ ".png"))
  if fsHas st viewPath then
    { resp := { success := true, pose := pose, viewName := viewName,
                imageUrl := viewUrl,
                remoteUrl := cachedRemoteUrl sessionId "character" (some pose)
                  (some viewName) viewUrl st,
                cached := true },
      st := st, providerCalled := false }
  else
    match viewPrompts pose viewName with
    | none =>
      { resp := { success := false,
                  error := "Unknown view: " ++ viewName ++ " for pose: " ++ pose },
        st := st, providerCalled := false }
    | some _ =>
      if prov.ok then
        match prov.images with
        | [] =>
          { resp := { success := false, error := "No images returned from API" },
            st := st, providerCalled := true }
        | newImageUrl :: _ =>
          let st1 := fsWrite st viewPath
          let st2 :=
            if truthy sessionId then
              recordAsset (sessionId.getD "") "character" viewPath
                { pose := some pose, viewName := some viewName,
                  remoteUrl := some newImageUrl, requestId := some prov.requestId } st1
            else st1
          { resp := { success := true, pose := pose, viewName := viewName,
                      imageUrl := viewUrl, remoteUrl := newImageUrl,
                      cached := false },
            st := st2, providerCalled := true }
      else
        { resp := { success := false, error := prov.errMsg },
          st := st, providerCalled := true }

/-- `/api/generate-3d-model` (`server.js` lines 678–809). The image list
is truncated (`imageUrls.splice(maxImages)`) to the provider's ceiling —
6 for `trellis`, 5 otherwise — BEFORE the cache check; `sentImages`
records the list handed to `fal.subscribe` (`none` when the provider is
not invoked). -/
def generate3DModel (imageUrls : List String) (pose modelType : String)
    (sessionId : Option String) (prov : ProviderMesh) (st : SysState) :
    EndpointResult :=
  let maxImages := if modelType = "trellis" then 6 else 5
  let urls := if imageUrls.length > maxImages then imageUrls.take maxImages
              else imageUrls
  let modelPath := getAssetPath sessionId "models" none (some ("character_" ++ pose ++ ".glb"))
  let modelUrl := getAssetUrl sessionId "models" none (some ("character_" ++ pose ++ ".glb"))
  if fsHas st modelPath then
    { resp := { success := true, modelUrl := modelUrl,
                requestId := "cached", cached := true },
      st := st, providerCalled := false, sentImages := none }
  else if prov.ok then
    match prov.meshUrl with
    | none =>
      { resp := { success := false, error := "No model returned from API" },
        st := st, providerCalled := true, sentImages := some urls }
    | some meshUrl =>
      let st1 := fsWrite st modelPath
      let st2 :=
        if truthy sessionId then
          recordAsset (sessionId.getD "") "models" modelPath
            { pose := some pose,
              remoteUrl := some meshUrl, requestId := some prov.requestId } st1
        else st1
      { resp := { success := true, modelUrl := modelUrl,
                  requestId := prov.requestId, cached := false },
        st := st2, providerCalled := true, sentImages := some urls }
  else
    { resp := { success := false, error := prov.errMsg },
      st := st, providerCalled := true, sentImages := some urls }

/-! ## Phase orchestrator (`src/unnamed/part_003`, `generateAllAssets`,
lines 455–753)

The orchestrator is a client: each generation request goes through
`parallelFetch`, which never throws — a transport error becomes a
`{success:false}` result object. The environment below gives the
response of every request the pipeline may issue; local rendering steps
(texture decode, `loadCharacterModel`) lie outside the generation state
space and are treated as non-failing. -/

/-- A pipeline-level response object as seen by the orchestrator
(`""` = absent field, mirroring JavaScript truthiness). -/
structure Resp where
  success : Bool := false
  cached : Bool := false
  imageUrl : String := ""
  remoteUrl : String := ""
  modelUrl : String := ""
  error : String := ""
deriving DecidableEq, Repr

/-- Responses of every request the pipeline may issue. -/
structure PipelineEnv where
  ground : Resp
  idleBase : Resp
  idleView : String → Resp
  idle3d : Resp
  walkingBase : Resp
  shootingBase : Resp
  walkingView : String → Resp
  shootingView : String → Resp

/-- `viewResult.remoteUrl || viewResult.imageUrl`. -/
def orUrl (r : Resp) : String :=
  if r.remoteUrl != "" then r.remoteUrl else r.imageUrl

/-- The URL collection loop shared by phases 2 and 4: start with the
front image, then append, in `viewOrder`, the URL of every view whose
request succeeded. -/
def collectViewUrls (front : String) (get : String → Resp) : List String :=
  front :: viewOrder.filterMap (fun v =>
    if (get v).success then some (orUrl (get v)) else none)

/-- What one pipeline run did and how it ended. `failed = some msg`
means the `catch` block ran (fallback scene, `Failed` outcome); the
`...Issued` fields record which generation requests were actually
dispatched, and the `...ImageUrls` fields the image list each 3D
reconstruction request carried. -/
structure PipelineOutcome where
  failed : Option String
  idleViewsIssued : Bool
  idle3dIssued : Bool
  walkingBaseIssued : Bool
  shootingBaseIssued : Bool
  walkingViewsIssued : Bool
  shootingViewsIssued : Bool
  walking3dIssued : Bool
  shooting3dIssued : Bool
  idle3dImageUrls : Option (List String)
  walking3dImageUrls : Option (List String)
  shooting3dImageUrls : Option (List String)
deriving DecidableEq, Repr

/-- `error || defaultMsg` of the `throw new Error(...)` sites. -/
def errOr (r : Resp) (defaultMsg : String) : String :=
  if r.error != "" then r.error else defaultMsg

/-- An outcome in which nothing after the failing point was issued. -/
def abortedOutcome (msg : String) (idleViews idle3d : Bool)
    (idleUrls : Option (List String)) : PipelineOutcome :=
  { failed := some msg,
    idleViewsIssued := idleViews,
    idle3dIssued := idle3d,
    walkingBaseIssued := idle3d,
    shootingBaseIssued := idle3d,
    walkingViewsIssued := false, shootingViewsIssued := false,
    walking3dIssued := false, shooting3dIssued := false,
    idle3dImageUrls := idleUrls,
    walking3dImageUrls := none, shooting3dImageUrls := none }

/-- `generateAllAssets` (`src/unnamed/part_003` lines 455–753), the
parallel pipeline. Phase 1: ground + idle base, hard failure on either.
Phase 2: the five idle views, soft. Phase 3: idle 3D (from the first 6
collected idle URLs) + walking/shooting base poses; hard failure only on
the idle 3D request. Phase 4: view fan-out per secondary pose whose base
produced a truthy URL; then a 3D request per pose whose collected URL
list (front image included) has at least 3 entries, carrying its first 6
URLs. -/
def generateAllAssets (env : PipelineEnv) : PipelineOutcome :=
  if !env.ground.success then
    abortedOutcome (errOr env.ground "Failed to generate ground") false false none
  else if !env.idleBase.success then
    abortedOutcome (errOr env.idleBase "Failed to generate idle character") false false none
  else
    let idleImageUrl := orUrl env.idleBase
    let idleViewUrls := collectViewUrls idleImageUrl env.idleView
    if !env.idle3d.success then
      abortedOutcome (errOr env.idle3d "Failed to generate idle 3D model")
        true true (some (idleViewUrls.take 6))
    else
      let walkingImageUrl :=
        if env.walkingBase.success then orUrl env.walkingBase else ""
      let shootingImageUrl :=
        if env.shootingBase.success then orUrl env.shootingBase else ""
      let wIssued := walkingImageUrl != ""
      let sIssued := shootingImageUrl != ""
      let walkingViewUrls :=
        if wIssued then collectViewUrls walkingImageUrl env.walkingView else []
      let shootingViewUrls :=
        if sIssued then collectViewUrls shootingImageUrl env.shootingView else []
      let w3d : Bool := walkingViewUrls.length ≥ 3
      let s3d : Bool := shootingViewUrls.length ≥ 3
      { failed := none,
        idleViewsIssued := true,
        idle3dIssued := true,
        walkingBaseIssued := true,
        shootingBaseIssued := true,
        walkingViewsIssued := wIssued,
        shootingViewsIssued := sIssued,
        walking3dIssued := w3d,
        shooting3dIssued := s3d,
        idle3dImageUrls := some (idleViewUrls.take 6),
        walking3dImageUrls := if w3d then some (walkingViewUrls.take 6) else none,
        shooting3dImageUrls := if s3d then some (shootingViewUrls.take 6) else none }

/-! ## Helper lemmas -/

/-- A component acceptable as a single path segment: non-empty and free
of the separator. -/
def goodSeg (s : String) : Prop := s ≠ "" ∧ '/' ∉ s.data

/-- A nullable component acceptable as a path segment. -/
def goodOptSeg : Option String → Prop
  | none => True
  | some s => goodSeg s

instance (s : String) : Decidable (goodSeg s) := by
  unfold goodSeg; infer_instance

instance (o : Option String) : Decidable (goodOptSeg o) := by
  cases o <;> simp [goodOptSeg] <;> infer_instance

lemma char_append_sep_inj :
    ∀ (la lc lx ly : List Char), '/' ∉ la → '/' ∉ lc →
      la ++ '/' :: lx = lc ++ '/' :: ly → la = lc ∧ lx = ly := by
  intro la
  induction la with
  | nil =>
    intro lc lx ly _ hc h
    cases lc with
    | nil => simpa using h
    | cons c cs =>
      simp only [List.nil_append, List.cons_append, List.cons.injEq] at h
      exact absurd (h.1 ▸ List.mem_cons_self c cs) hc
  | cons a as ih =>
    intro lc lx ly ha hc h
    cases lc with
    | nil =>
      simp only [List.cons_append, List.nil_append, List.cons.injEq] at h
      exact absurd (h.1 ▸ List.mem_cons_self a as) ha
    | cons c cs =>
      simp only [List.cons_append, List.cons.injEq] at h
      obtain ⟨hac, htail⟩ := h
      have has : '/' ∉ as := fun hm => ha (List.mem_cons_of_mem a hm)
      have hcs : '/' ∉ cs := fun hm => hc (List.mem_cons_of_mem c hm)
      obtain ⟨h1, h2⟩ := ih cs lx ly has hcs htail
      exact ⟨by rw [hac, h1], h2⟩

lemma string_sep_inj {a c x y : String} (ha : '/' ∉ a.data) (hc : '/' ∉ c.data)
    (h : a ++ "/" ++ x = c ++ "/" ++ y) : a = c ∧ x = y := by
  have hd := congrArg String.data h
  simp only [String.data_append] at hd
  rw [List.append_assoc, List.append_assoc, List.singleton_append,
    List.singleton_append] at hd
  obtain ⟨h1, h2⟩ := char_append_sep_inj a.data c.data x.data y.data ha hc hd
  refine ⟨?_, ?_⟩ <;> apply String.ext <;> assumption

lemma jp2 (a b : String) : joinParts [a, b] = a ++ "/" ++ b := rfl

lemma jp3 (a b c : String) : joinParts [a, b, c] = a ++ "/" ++ (b ++ "/" ++ c) := rfl

lemma mem_sep_append (p q : String) : '/' ∈ (p ++ "/" ++ q).data := by
  simp only [String.data_append]
  simp

/-- Injectivity of the three-component tail `t [/pose] /f` of a resolved
path, for good segments: equal joined strings force equal components. -/
lemma tail_inj {t1 t2 f1 f2 : String} {p1 p2 : Option String}
    (ht1 : goodSeg t1) (ht2 : goodSeg t2)
    (hp1 : goodOptSeg p1) (hp2 : goodOptSeg p2)
    (hf1 : goodSeg f1) (hf2 : goodSeg f2)
    (h : joinParts (t1 :: optPart p1 ++ [f1]) = joinParts (t2 :: optPart p2 ++ [f2])) :
    t1 = t2 ∧ p1 = p2 ∧ f1 = f2 := by
  cases p1 with
  | none =>
    cases p2 with
    | none =>
      simp only [optPart, List.nil_append, List.cons_append,
        List.singleton_append] at h
      rw [jp2, jp2] at h
      obtain ⟨h1, h2⟩ := string_sep_inj ht1.2 ht2.2 h
      exact ⟨h1, rfl, h2⟩
    | some q2 =>
      obtain ⟨hq2ne, hq2s⟩ := hp2
      simp only [optPart, List.nil_append, if_neg hq2ne, List.cons_append,
        List.singleton_append] at h
      rw [jp2, jp3] at h
      obtain ⟨_, h2⟩ := string_sep_inj ht1.2 ht2.2 h
      exact absurd (h2 ▸ mem_sep_append q2 f2) hf1.2
  | some q1 =>
    obtain ⟨hq1ne, hq1s⟩ := hp1
    cases p2 with
    | none =>
      simp only [optPart, List.nil_append, if_neg hq1ne, List.cons_append,
        List.singleton_append] at h
      rw [jp3, jp2] at h
      obtain ⟨_, h2⟩ := string_sep_inj ht1.2 ht2.2 h
      exact absurd (h2.symm ▸ mem_sep_append q1 f1) hf2.2
    | some q2 =>
      obtain ⟨hq2ne, hq2s⟩ := hp2
      simp only [optPart, List.nil_append, if_neg hq1ne, if_neg hq2ne,
        List.cons_append, List.singleton_append] at h
      rw [jp3, jp3] at h
      obtain ⟨h1, h2⟩ := string_sep_inj ht1.2 ht2.2 h
      obtain ⟨h3, h4⟩ := string_sep_inj hq1s hq2s h2
      exact ⟨h1, by rw [h3], h4⟩

lemma joinParts_append {l1 l2 : List String} (h1 : l1 ≠ []) (h2 : l2 ≠ []) :
    joinParts (l1 ++ l2) = joinParts l1 ++ "/" ++ joinParts l2 := by
  induction l1 with
  | nil => exact absurd rfl h1
  | cons x xs ih =>
    cases xs with
    | nil =>
      cases l2 with
      | nil => exact absurd rfl h2
      | cons y ys =>
        show joinParts (x :: y :: ys) = x ++ "/" ++ joinParts (y :: ys)
        rfl
    | cons z zs =>
      calc joinParts ((x :: z :: zs) ++ l2)
          = x ++ "/" ++ joinParts ((z :: zs) ++ l2) := by
            cases h : (z :: zs) ++ l2 with
            | nil => simp at h
            | cons w ws => rw [show (x :: z :: zs) ++ l2 = x :: ((z :: zs) ++ l2) from rfl, h]; rfl
        _ = x ++ "/" ++ (joinParts (z :: zs) ++ "/" ++ joinParts l2) := by
            rw [ih (by simp)]
        _ = (x ++ "/" ++ joinParts (z :: zs)) ++ "/" ++ joinParts l2 := by
            simp [String.append_assoc]
        _ = joinParts (x :: z :: zs) ++ "/" ++ joinParts l2 := rfl

/-- A path segment that survives normalization untouched: non-empty,
separator-free, and neither `"."` nor `".."`. -/
def strictSeg (s : String) : Prop := goodSeg s ∧ s ≠ "." ∧ s ≠ ".."

/-- A nullable such segment. -/
def strictOptSeg : Option String → Prop
  | none => True
  | some s => strictSeg s

instance (s : String) : Decidable (strictSeg s) := by
  unfold strictSeg; infer_instance

instance (o : Option String) : Decidable (strictOptSeg o) := by
  cases o <;> simp [strictOptSeg] <;> infer_instance

lemma strictOptSeg_good {o : Option String} (h : strictOptSeg o) : goodOptSeg o := by
  cases o with
  | none => trivial
  | some s => exact h.1

lemma splitSlashChars_of_not_mem {l : List Char} (h : '/' ∉ l) :
    splitSlashChars l = [l] := by
  induction l with
  | nil => rfl
  | cons c cs ih =>
    have hc : ¬c = '/' := fun he => h (he ▸ List.mem_cons_self c cs)
    have hcs : '/' ∉ cs := fun hm => h (List.mem_cons_of_mem c hm)
    unfold splitSlashChars
    rw [if_neg hc, ih hcs]

lemma pathSegs_of_slash_free {s : String} (h : '/' ∉ s.data) :
    pathSegs s = [s] := by
  unfold pathSegs
  rw [splitSlashChars_of_not_mem h]
  rfl

lemma flatten_map_pathSegs {parts : List String}
    (h : ∀ q ∈ parts, '/' ∉ q.data) :
    (parts.map pathSegs).flatten = parts := by
  induction parts with
  | nil => rfl
  | cons a t ih =>
    rw [List.map_cons, List.flatten_cons,
      pathSegs_of_slash_free (h a (List.mem_cons_self a t)),
      ih (fun q hq => h q (List.mem_cons_of_mem a hq))]
    rfl

lemma foldl_normStep_strict {parts : List String}
    (h : ∀ q ∈ parts, strictSeg q) :
    ∀ acc, parts.foldl normStep acc = parts.reverse ++ acc := by
  induction parts with
  | nil => intro acc; rfl
  | cons a t ih =>
    intro acc
    obtain ⟨⟨hne, _⟩, hdot, hdots⟩ := h a (List.mem_cons_self a t)
    have hstep : normStep acc a = a :: acc := by
      unfold normStep
      rw [if_neg (by simp [hne, hdot]), if_neg hdots]
    rw [List.foldl_cons, hstep,
      ih (fun q hq => h q (List.mem_cons_of_mem a hq)) (a :: acc)]
    simp

/-- The normalized segment list of the scope prefix
`[ASSETS_DIR] ++ optPart sid` of every resolved path. -/
def scopeSegs (sid : Option String) : List String :=
  ((([ASSETS_DIR] ++ optPart sid).map pathSegs).flatten.foldl normStep []).reverse

/-- A resolved path whose asset type, pose and file name are strict
segments is the scope's normalized segments followed by the unchanged
`t [/pose] /f` tail, joined plainly. -/
lemma getAssetPath_eq (sid : Option String) (t f : String) (p : Option String)
    (ht : strictSeg t) (hp : strictOptSeg p) (hf : strictSeg f) :
    getAssetPath sid t p (some f) =
      joinParts (scopeSegs sid ++ (t :: optPart p ++ [f])) := by
  have hT : ∀ q ∈ t :: optPart p ++ [f], strictSeg q := by
    intro q hq
    rcases List.mem_append.1 hq with hq1 | hq2
    · rcases List.mem_cons.1 hq1 with h | hq3
      · exact h ▸ ht
      · cases p with
        | none => simp [optPart] at hq3
        | some pv =>
          have hpv : strictSeg pv := hp
          rw [show optPart (some pv) = [pv] from by simp [optPart, hpv.1.1],
            List.mem_singleton] at hq3
          exact hq3 ▸ hpv
    · rw [List.mem_singleton] at hq2
      exact hq2 ▸ hf
  have hparts : [ASSETS_DIR] ++ optPart sid ++ [t] ++ optPart p ++ optPart (some f)
      = ([ASSETS_DIR] ++ optPart sid) ++ (t :: optPart p ++ [f]) := by
    simp [optPart, if_neg hf.1.1, List.append_assoc]
  unfold getAssetPath pathJoin
  rw [hparts, List.map_append, List.flatten_append,
    flatten_map_pathSegs (fun q hq => (hT q hq).1.2),
    List.foldl_append, foldl_normStep_strict hT, List.reverse_append,
    List.reverse_reverse]
  unfold rejoinSegs
  rw [if_neg (by simp)]
  rfl

lemma fsHas_fsWrite_self (st : SysState) (p : String) :
    fsHas (fsWrite st p) p = true := by
  simp [fsHas, fsWrite]

lemma recordAsset_fs (sid assetType path : String) (m : AssetMeta) (st : SysState) :
    (recordAsset sid assetType path m st).fs = st.fs := rfl

lemma fsHas_recordAsset (sid assetType path : String) (m : AssetMeta)
    (st : SysState) (p : String) :
    fsHas (recordAsset sid assetType path m st) p = fsHas st p := rfl

/-- Caching idempotence for `/api/generate-texture`: a successful call
leaves the artifact on disk, so an immediately repeated call for the
same key is a cache hit with the same artifact URL and no provider
invocation. -/
lemma cachingIdem_texture (sid : Option String) (p1 p2 : ProviderImage)
    (st : SysState) (h : (generateTexture sid p1 st).resp.success = true) :
    (generateTexture sid p2 (generateTexture sid p1 st).st).resp.success = true
    ∧ (generateTexture sid p2 (generateTexture sid p1 st).st).resp.cached = true
    ∧ (generateTexture sid p2 (generateTexture sid p1 st).st).resp.imageUrl
        = (generateTexture sid p1 st).resp.imageUrl
    ∧ (generateTexture sid p2 (generateTexture sid p1 st).st).providerCalled = false := by
  by_cases hc : fsHas st (getAssetPath sid "ground" none (some "ground-texture.png")) = true
  · simp [generateTexture, hc]
  · simp only [Bool.not_eq_true] at hc
    by_cases hok : p1.ok = true
    · cases him : p1.images with
      | nil => simp [generateTexture, hc, hok, him] at h
      | cons u rest =>
        by_cases hsid : truthy sid = true <;>
          simp [generateTexture, hc, hok, him, hsid, fsHas_recordAsset,
            fsHas_fsWrite_self]
    · simp only [Bool.not_eq_true] at hok
      simp [generateTexture, hc, hok] at h

/-- Caching idempotence for `/api/generate-character`. -/
lemma cachingIdem_character (pose : String) (sid : Option String)
    (p1 p2 : ProviderImage) (st : SysState)
    (h : (generateCharacter pose sid p1 st).resp.success = true) :
    (generateCharacter pose sid p2 (generateCharacter pose sid p1 st).st).resp.success = true
    ∧ (generateCharacter pose sid p2 (generateCharacter pose sid p1 st).st).resp.cached = true
    ∧ (generateCharacter pose sid p2 (generateCharacter pose sid p1 st).st).resp.imageUrl
        = (generateCharacter pose sid p1 st).resp.imageUrl
    ∧ (generateCharacter pose sid p2 (generateCharacter pose sid p1 st).st).providerCalled = false := by
  by_cases hc : fsHas st (getAssetPath sid "character" (some pose) (some "front.png")) = true
  · simp [generateCharacter, hc]
  · simp only [Bool.not_eq_true] at hc
    by_cases hok : p1.ok = true
    · cases him : p1.images with
      | nil => simp [generateCharacter, hc, hok, him] at h
      | cons u rest =>
        by_cases hsid : truthy sid = true <;>
          simp [generateCharacter, hc, hok, him, hsid, fsHas_recordAsset,
            fsHas_fsWrite_self]
    · simp only [Bool.not_eq_true] at hok
      simp [generateCharacter, hc, hok] at h

/-- Caching idempotence for `/api/generate-pose`. -/
lemma cachingIdem_pose (targetPose : String) (sid : Option String)
    (p1 p2 : ProviderImage) (st : SysState)
    (h : (generatePose targetPose sid p1 st).resp.success = true) :
    (generatePose targetPose sid p2 (generatePose targetPose sid p1 st).st).resp.success = true
    ∧ (generatePose targetPose sid p2 (generatePose targetPose sid p1 st).st).resp.cached = true
    ∧ (generatePose targetPose sid p2 (generatePose targetPose sid p1 st).st).resp.imageUrl
        = (generatePose targetPose sid p1 st).resp.imageUrl
    ∧ (generatePose targetPose sid p2 (generatePose targetPose sid p1 st).st).providerCalled = false := by
  by_cases hc : fsHas st (getAssetPath sid "character" (some targetPose) (some "front.png")) = true
  · simp [generatePose, hc]
  · simp only [Bool.not_eq_true] at hc
    by_cases hpre : (!fsHas st (getAssetPath sid "character" (some "idle") (some "front.png"))
        && !fsHas st (getAssetPath none "character" (some "idle") (some "front.png"))) = true
    · simp [generatePose, hc, hpre] at h
    · cases hp : posePrompts targetPose with
      | none => simp [generatePose, hc, hpre, hp] at h
      | some pr =>
        by_cases hif : fsHas st (getAssetPath sid "character" (some "idle") (some "front.png")) = true
        · by_cases hok : p1.ok = true
          · cases him : p1.images with
            | nil => simp [generatePose, hc, hpre, hp, hif, hok, him] at h
            | cons u rest =>
              by_cases hsid : truthy sid = true <;>
                simp [generatePose, hc, hpre, hp, hif, hok, him, hsid,
                  fsHas_recordAsset, fsHas_fsWrite_self]
          · simp only [Bool.not_eq_true] at hok
            simp [generatePose, hc, hpre, hp, hif, hok] at h
        · simp only [Bool.not_eq_true] at hif
          simp [generatePose, hc, hpre, hp, hif] at h
          split at h <;> simp at h

/-- Caching idempotence for `/api/generate-view`. -/
lemma cachingIdem_view (pose viewName : String) (sid : Option String)
    (p1 p2 : ProviderImage) (st : SysState)
    (h : (generateView pose viewName sid p1 st).resp.success = true) :
    (generateView pose viewName sid p2 (generateView pose viewName sid p1 st).st).resp.success = true
    ∧ (generateView pose viewName sid p2 (generateView pose viewName sid p1 st).st).resp.cached = true
    ∧ (generateView pose viewName sid p2 (generateView pose viewName sid p1 st).st).resp.imageUrl
        = (generateView pose viewName sid p1 st).resp.imageUrl
    ∧ (generateView pose viewName sid p2 (generateView pose viewName sid p1 st).st).providerCalled = false := by
  by_cases hc : fsHas st (getAssetPath sid "character" (some pose) (some (viewName ++ ".png"))) = true
  · simp [generateView, hc]
  · simp only [Bool.not_eq_true] at hc
    cases hp : viewPrompts pose viewName with
    | none => simp [generateView, hc, hp] at h
    | some pr =>
      by_cases hok : p1.ok = true
      · cases him : p1.images with
        | nil => simp [generateView, hc, hp, hok, him] at h
        | cons u rest =>
          by_cases hsid : truthy sid = true <;>
            simp [generateView, hc, hp, hok, him, hsid, fsHas_recordAsset,
              fsHas_fsWrite_self]
      · simp only [Bool.not_eq_true] at hok
        simp [generateView, hc, hp, hok] at h

/-- Caching idempotence for `/api/generate-3d-model` (on the `modelUrl`
field of the response). -/
lemma cachingIdem_model (imageUrls : List String) (pose modelType : String)
    (sid : Option String) (p1 p2 : ProviderMesh) (st : SysState)
    (h : (generate3DModel imageUrls pose modelType sid p1 st).resp.success = true) :
    (generate3DModel imageUrls pose modelType sid p2
        (generate3DModel imageUrls pose modelType sid p1 st).st).resp.success = true
    ∧ (generate3DModel imageUrls pose modelType sid p2
        (generate3DModel imageUrls pose modelType sid p1 st).st).resp.cached = true
    ∧ (generate3DModel imageUrls pose modelType sid p2
        (generate3DModel imageUrls pose modelType sid p1 st).st).resp.modelUrl
        = (generate3DModel imageUrls pose modelType sid p1 st).resp.modelUrl
    ∧ (generate3DModel imageUrls pose modelType sid p2
        (generate3DModel imageUrls pose modelType sid p1 st).st).providerCalled = false := by
  by_cases hc : fsHas st (getAssetPath sid "models" none (some ("character_" ++ pose ++ ".glb"))) = true
  · simp [generate3DModel, hc]
  · simp only [Bool.not_eq_true] at hc
    by_cases hok : p1.ok = true
    · cases hm : p1.meshUrl with
      | none => simp [generate3DModel, hc, hok, hm] at h
      | some meshUrl =>
        by_cases hsid : truthy sid = true <;>
          simp [generate3DModel, hc, hok, hm, hsid, fsHas_recordAsset,
            fsHas_fsWrite_self]
    · simp only [Bool.not_eq_true] at hok
      simp [generate3DModel, hc, hok] at h

/-! ## Claim C2 -/

/-- **C2.** For every generation operation that resolves a cache key to
an asset path (ground texture, character front image, view, pose base,
3D model): if one call succeeds and writes the artifact file, then an
immediately repeated call with the same key returns a success result
with `cached = true` referencing the same artifact URL, and invokes no
remote provider call. -/
theorem c2_caching_idempotent :
    (∀ (sid : Option String) (p1 p2 : ProviderImage) (st : SysState),
      (generateTexture sid p1 st).resp.success = true →
      (generateTexture sid p2 (generateTexture sid p1 st).st).resp.success = true
      ∧ (generateTexture sid p2 (generateTexture sid p1 st).st).resp.cached = true
      ∧ (generateTexture sid p2 (generateTexture sid p1 st).st).resp.imageUrl
          = (generateTexture sid p1 st).resp.imageUrl
      ∧ (generateTexture sid p2 (generateTexture sid p1 st).st).providerCalled = false)
    ∧ (∀ (pose : String) (sid : Option String) (p1 p2 : ProviderImage) (st : SysState),
      (generateCharacter pose sid p1 st).resp.success = true →
      (generateCharacter pose sid p2 (generateCharacter pose sid p1 st).st).resp.success = true
      ∧ (generateCharacter pose sid p2 (generateCharacter pose sid p1 st).st).resp.cached = true
      ∧ (generateCharacter pose sid p2 (generateCharacter pose sid p1 st).st).resp.imageUrl
          = (generateCharacter pose sid p1 st).resp.imageUrl
      ∧ (generateCharacter pose sid p2 (generateCharacter pose sid p1 st).st).providerCalled = false)
    ∧ (∀ (targetPose : String) (sid : Option String) (p1 p2 : ProviderImage) (st : SysState),
      (generatePose targetPose sid p1 st).resp.success = true →
      (generatePose targetPose sid p2 (generatePose targetPose sid p1 st).st).resp.success = true
      ∧ (generatePose targetPose sid p2 (generatePose targetPose sid p1 st).st).resp.cached = true
      ∧ (generatePose targetPose sid p2 (generatePose targetPose sid p1 st).st).resp.imageUrl
          = (generatePose targetPose sid p1 st).resp.imageUrl
      ∧ (generatePose targetPose sid p2 (generatePose targetPose sid p1 st).st).providerCalled = false)
    ∧ (∀ (pose viewName : String) (sid : Option String) (p1 p2 : ProviderImage) (st : SysState),
      (generateView pose viewName sid p1 st).resp.success = true →
      (generateView pose viewName sid p2 (generateView pose viewName sid p1 st).st).resp.success = true
      ∧ (generateView pose viewName sid p2 (generateView pose viewName sid p1 st).st).resp.cached = true
      ∧ (generateView pose viewName sid p2 (generateView pose viewName sid p1 st).st).resp.imageUrl
          = (generateView pose viewName sid p1 st).resp.imageUrl
      ∧ (generateView pose viewName sid p2 (generateView pose viewName sid p1 st).st).providerCalled = false)
    ∧ (∀ (imageUrls : List String) (pose modelType : String) (sid : Option String)
        (p1 p2 : ProviderMesh) (st : SysState),
      (generate3DModel imageUrls pose modelType sid p1 st).resp.success = true →
      (generate3DModel imageUrls pose modelType sid p2
          (generate3DModel imageUrls pose modelType sid p1 st).st).resp.success = true
      ∧ (generate3DModel imageUrls pose modelType sid p2
          (generate3DModel imageUrls pose modelType sid p1 st).st).resp.cached = true
      ∧ (generate3DModel imageUrls pose modelType sid p2
          (generate3DModel imageUrls pose modelType sid p1 st).st).resp.modelUrl
          = (generate3DModel imageUrls pose modelType sid p1 st).resp.modelUrl
      ∧ (generate3DModel imageUrls pose modelType sid p2
          (generate3DModel imageUrls pose modelType sid p1 st).st).providerCalled = false) :=
  ⟨cachingIdem_texture, cachingIdem_character, cachingIdem_pose,
   cachingIdem_view, cachingIdem_model⟩

/-- The empty system state. -/
def st0 : SysState := { sessions := [], assets := [], fs := [] }

/-- A state in which session `s1` already has its idle front image. -/
def stIdle : SysState :=
  { sessions := [], assets := [], fs := ["ASSETS/s1/character/idle/front.png"] }

/-- A successful image-provider response. -/
def pvOk : ProviderImage := { ok := true, images := ["https://r/img.png"], requestId := "rq1" }

/-- A successful mesh-provider response. -/
def pmOk : ProviderMesh := { ok := true, meshUrl := some "https://r/mesh.glb", requestId := "rq2" }

/-- Witness for C2 at concrete inputs: each operation's first call
succeeds, and the repeated call is a cache hit. -/
theorem c2_caching_idempotent_witness :
    ((generateTexture (some "s1") pvOk (generateTexture (some "s1") pvOk st0).st).resp.cached = true
      ∧ (generateTexture (some "s1") pvOk (generateTexture (some "s1") pvOk st0).st).providerCalled = false)
    ∧ ((generateCharacter "idle" (some "s1") pvOk (generateCharacter "idle" (some "s1") pvOk st0).st).resp.cached = true
      ∧ (generateCharacter "idle" (some "s1") pvOk (generateCharacter "idle" (some "s1") pvOk st0).st).providerCalled = false)
    ∧ ((generatePose "walking" (some "s1") pvOk (generatePose "walking" (some "s1") pvOk stIdle).st).resp.cached = true
      ∧ (generatePose "walking" (some "s1") pvOk (generatePose "walking" (some "s1") pvOk stIdle).st).providerCalled = false)
    ∧ ((generateView "idle" "back" (some "s1") pvOk (generateView "idle" "back" (some "s1") pvOk st0).st).resp.cached = true
      ∧ (generateView "idle" "back" (some "s1") pvOk (generateView "idle" "back" (some "s1") pvOk st0).st).providerCalled = false)
    ∧ ((generate3DModel ["https://r/a", "https://r/b", "https://r/c"] "idle" "trellis" (some "s1") pmOk
        (generate3DModel ["https://r/a", "https://r/b", "https://r/c"] "idle" "trellis" (some "s1") pmOk st0).st).resp.cached = true
      ∧ (generate3DModel ["https://r/a", "https://r/b", "https://r/c"] "idle" "trellis" (some "s1") pmOk
        (generate3DModel ["https://r/a", "https://r/b", "https://r/c"] "idle" "trellis" (some "s1") pmOk st0).st).providerCalled = false) := by
  have h1 := c2_caching_idempotent.1 (some "s1") pvOk pvOk st0 (by decide)
  have h2 := c2_caching_idempotent.2.1 "idle" (some "s1") pvOk pvOk st0 (by decide)
  have h3 := c2_caching_idempotent.2.2.1 "walking" (some "s1") pvOk pvOk stIdle (by decide)
  have h4 := c2_caching_idempotent.2.2.2.1 "idle" "back" (some "s1") pvOk pvOk st0 (by decide)
  have h5 := c2_caching_idempotent.2.2.2.2 ["https://r/a", "https://r/b", "https://r/c"]
    "idle" "trellis" (some "s1") pmOk pmOk st0 (by decide)
  exact ⟨⟨h1.2.1, h1.2.2.2⟩, ⟨h2.2.1, h2.2.2.2⟩, ⟨h3.2.1, h3.2.2.2⟩,
    ⟨h4.2.1, h4.2.2.2⟩, ⟨h5.2.1, h5.2.2.2⟩⟩

/-! ## Claims C1 and C7 -/

lemma length_filterMap_ite {α β : Type} (p : α → Bool) (g : α → β) :
    ∀ l : List α,
      (l.filterMap (fun v => if p v then some (g v) else none)).length = l.countP p := by
  intro l
  induction l with
  | nil => rfl
  | cons a t ih =>
    by_cases h : p a <;>
      simp [List.filterMap_cons, h, ih, List.countP_cons]

lemma length_collectViewUrls (front : String) (get : String → Resp) :
    (collectViewUrls front get).length
      = 1 + viewOrder.countP (fun v => (get v).success) := by
  unfold collectViewUrls
  rw [List.length_cons, length_filterMap_ite]
  omega

/-- The pipeline environment of the C1 counterexample: phases 1–3
succeed, the walking base succeeds, exactly 2 of the 5 walking view
requests succeed, the shooting base fails. -/
def envC1 : PipelineEnv :=
  { ground := { success := true, imageUrl := "/assets/ground/ground-texture.png" },
    idleBase := { success := true, remoteUrl := "https://r/idle-front.png" },
    idleView := fun v => { success := true, remoteUrl := "https://r/idle-" ++ v },
    idle3d := { success := true, modelUrl := "/assets/models/character_idle.glb" },
    walkingBase := { success := true, remoteUrl := "https://r/walking-front.png" },
    shootingBase := { success := false, error := "provider error" },
    walkingView := fun v =>
      if v = "back" || v = "left" then
        { success := true, remoteUrl := "https://r/walking-" ++ v }
      else { success := false, error := "provider error" },
    shootingView := fun _ => { success := false } }

/-- **C1 counterexample.** With exactly 2 of the 5 walking view requests
succeeding, the orchestrator still issues the walking 3D
mesh-reconstruction request (the `>= 3` threshold is applied to the URL
list that already contains the base front image), contradicting the
claim that reconstruction is skipped below 3 successful views. -/
theorem c1_two_views_counterexample :
    viewOrder.countP (fun v => (envC1.walkingView v).success) = 2
    ∧ (generateAllAssets envC1).walking3dIssued = true
    ∧ (generateAllAssets envC1).failed = none := by
  refine ⟨by decide, by decide, by decide⟩

/-- **C1 amended.** For a secondary pose whose base front image was
produced (and produced a truthy URL), the Phase-4 orchestrator issues
the pose's 3D mesh-reconstruction request if and only if at least 2 of
that pose's 5 view-generation requests succeeded (the code's threshold
of 3 counts the base front image as well as the successful views); the
pipeline reaches `Done` either way. -/
theorem c1_reconstruction_threshold_amended :
    ∀ env : PipelineEnv,
      env.ground.success = true → env.idleBase.success = true →
      env.idle3d.success = true →
      ((env.walkingBase.success = true → orUrl env.walkingBase ≠ "" →
        ((generateAllAssets env).walking3dIssued = true ↔
          2 ≤ viewOrder.countP (fun v => (env.walkingView v).success)))
      ∧ (env.shootingBase.success = true → orUrl env.shootingBase ≠ "" →
        ((generateAllAssets env).shooting3dIssued = true ↔
          2 ≤ viewOrder.countP (fun v => (env.shootingView v).success)))
      ∧ (generateAllAssets env).failed = none) := by
  intro env hg hib h3
  refine ⟨?_, ?_, ?_⟩
  · intro hw hwu
    simp only [generateAllAssets, hg, hib, h3, hw, Bool.not_true, if_true,
      if_false, Bool.false_eq_true, not_false_eq_true, ite_true, ite_false,
      Bool.not_eq_true]
    simp only [bne_iff_ne, ne_eq, hwu, not_false_eq_true, if_true,
      ite_true, decide_eq_true_eq]
    rw [length_collectViewUrls]
    omega
  · intro hs hsu
    simp only [generateAllAssets, hg, hib, h3, hs, Bool.not_true, if_true,
      if_false, Bool.false_eq_true, not_false_eq_true, ite_true, ite_false,
      Bool.not_eq_true]
    simp only [bne_iff_ne, ne_eq, hsu, not_false_eq_true, if_true,
      ite_true, decide_eq_true_eq]
    rw [length_collectViewUrls]
    omega
  · simp [generateAllAssets, hg, hib, h3]

/-- Witness for the amended C1 at the concrete environment `envC1`. -/
theorem c1_reconstruction_threshold_witness :
    ((generateAllAssets envC1).walking3dIssued = true ↔
      2 ≤ viewOrder.countP (fun v => (envC1.walkingView v).success))
    ∧ (generateAllAssets envC1).failed = none := by
  have h := c1_reconstruction_threshold_amended envC1 (by decide) (by decide) (by decide)
  exact ⟨h.1 (by decide) (by decide), h.2.2⟩

/-- The pipeline environment of the C7 witness: everything succeeds
except the shooting base image. -/
def envC7 : PipelineEnv :=
  { ground := { success := true, imageUrl := "/assets/ground/ground-texture.png" },
    idleBase := { success := true, remoteUrl := "https://r/idle-front.png" },
    idleView := fun v => { success := true, remoteUrl := "https://r/idle-" ++ v },
    idle3d := { success := true, modelUrl := "/assets/models/character_idle.glb" },
    walkingBase := { success := true, remoteUrl := "https://r/walking-front.png" },
    shootingBase := { success := false, error := "provider error" },
    walkingView := fun v => { success := true, remoteUrl := "https://r/walking-" ++ v },
    shootingView := fun _ => { success := false } }

/-- **C7.** Given Phase 1 succeeded, the pipeline takes the
failed/fallback path iff the idle 3D mesh-reconstruction request fails;
a walking or shooting base-image failure does not abort — no view and no
reconstruction requests are issued for that pose and the run still
completes. -/
theorem c7_phase3_failure_policy :
    ∀ env : PipelineEnv,
      env.ground.success = true → env.idleBase.success = true →
      (((generateAllAssets env).failed ≠ none) ↔ env.idle3d.success = false)
      ∧ (env.idle3d.success = true → env.walkingBase.success = false →
          (generateAllAssets env).walkingViewsIssued = false
          ∧ (generateAllAssets env).walking3dIssued = false
          ∧ (generateAllAssets env).failed = none)
      ∧ (env.idle3d.success = true → env.shootingBase.success = false →
          (generateAllAssets env).shootingViewsIssued = false
          ∧ (generateAllAssets env).shooting3dIssued = false
          ∧ (generateAllAssets env).failed = none) := by
  intro env hg hib
  cases h3 : env.idle3d.success with
  | false =>
    refine ⟨?_, ?_, ?_⟩
    · simp [generateAllAssets, hg, hib, h3, abortedOutcome]
    · intro h; exact absurd h (by simp)
    · intro h; exact absurd h (by simp)
  | true =>
    refine ⟨?_, ?_, ?_⟩
    · simp [generateAllAssets, hg, hib, h3]
    · intro _ hw
      simp [generateAllAssets, hg, hib, h3, hw, collectViewUrls]
    · intro _ hs
      simp [generateAllAssets, hg, hib, h3, hs, collectViewUrls]

/-- Witness for C7 at the concrete environment `envC7`: the shooting
base failed, so no shooting views and no shooting reconstruction were
issued and the run completed. -/
theorem c7_phase3_failure_policy_witness :
    (((generateAllAssets envC7).failed ≠ none) ↔ envC7.idle3d.success = false)
    ∧ (generateAllAssets envC7).shootingViewsIssued = false
    ∧ (generateAllAssets envC7).shooting3dIssued = false
    ∧ (generateAllAssets envC7).failed = none := by
  have h := c7_phase3_failure_policy envC7 (by decide) (by decide)
  exact ⟨h.1, h.2.2 (by decide) (by decide)⟩

/-! ## Claim C6 -/

lemma string_append_left_cancel {s a b : String} (h : s ++ a = s ++ b) : a = b := by
  have hd := congrArg String.data h
  simp only [String.data_append] at hd
  exact String.ext (List.append_cancel_left hd)

/-- **C6 counterexample.** The resolver is not injective as claimed:
(i) a session-scoped input collides with a legacy-scoped one
(`getAssetPath("x", "y", null, "f")` and `getAssetPath(null, "x", "y",
"f")` yield the same path), so distinct inputs overall can resolve to
the same path; (ii) under the same (legacy) scope, an asset type
containing a separator collides with a (type, pose) pair; (iii) under
the same scope, an empty file name collides with a pose-less input,
because falsy components are simply dropped; (iv) under the same scope,
`path.join`'s normalization makes any two types collide when the pose is
`".."` (both resolve to `ASSETS/f`). -/
theorem c6_path_resolver_counterexample :
    (getAssetPath (some "x") "y" none (some "f")
        = getAssetPath none "x" (some "y") (some "f")
      ∧ (some "x" : Option String) ≠ (none : Option String))
    ∧ getAssetPath none "a/b" none (some "f")
        = getAssetPath none "a" (some "b") (some "f")
    ∧ (getAssetPath none "t" (some "p") (some "")
        = getAssetPath none "t" none (some "p")
      ∧ (some "p" : Option String) ≠ (none : Option String))
    ∧ (getAssetPath none "a" (some "..") (some "f")
        = getAssetPath none "b" (some "..") (some "f")
      ∧ ("a" : String) ≠ "b") := by
  exact ⟨⟨by decide, by decide⟩, by decide, ⟨by decide, by decide⟩,
    by decide, by decide⟩

/-- **C6 amended.** The resolver is a pure function — equal inputs yield
equal storage paths and equal external addresses — and, restricted to
strict path segments (non-empty, separator-free, and neither `"."` nor
`".."`: normalization leaves such segments untouched), it is injective
under a fixed scope: two different (assetType, pose, fileName) tuples
under the same scope never resolve to the same storage path. (Across
different scopes, and for degenerate or dot segments, collisions exist —
see the counterexample.) -/
theorem c6_path_resolver_amended :
    (∀ (s1 s2 : Option String) (t1 t2 : String) (p1 p2 f1 f2 : Option String),
      s1 = s2 → t1 = t2 → p1 = p2 → f1 = f2 →
      getAssetPath s1 t1 p1 f1 = getAssetPath s2 t2 p2 f2
      ∧ getAssetUrl s1 t1 p1 f1 = getAssetUrl s2 t2 p2 f2)
    ∧ (∀ (sid : Option String) (t1 t2 f1 f2 : String) (p1 p2 : Option String),
      strictSeg t1 → strictSeg t2 → strictOptSeg p1 → strictOptSeg p2 →
      strictSeg f1 → strictSeg f2 →
      getAssetPath sid t1 p1 (some f1) = getAssetPath sid t2 p2 (some f2) →
      t1 = t2 ∧ p1 = p2 ∧ f1 = f2) := by
  constructor
  · intro s1 s2 t1 t2 p1 p2 f1 f2 hs ht hp hf
    subst hs; subst ht; subst hp; subst hf
    exact ⟨rfl, rfl⟩
  · intro sid t1 t2 f1 f2 p1 p2 ht1 ht2 hp1 hp2 hf1 hf2 h
    rw [getAssetPath_eq sid t1 f1 p1 ht1 hp1 hf1,
      getAssetPath_eq sid t2 f2 p2 ht2 hp2 hf2] at h
    cases hB : scopeSegs sid with
    | nil =>
      rw [hB, List.nil_append, List.nil_append] at h
      exact tail_inj ht1.1 ht2.1 (strictOptSeg_good hp1) (strictOptSeg_good hp2)
        hf1.1 hf2.1 h
    | cons b bs =>
      rw [hB] at h
      have hbs : (b :: bs : List String) ≠ [] := by simp
      have hT1 : (t1 :: optPart p1 ++ [f1] : List String) ≠ [] := by simp
      have hT2 : (t2 :: optPart p2 ++ [f2] : List String) ≠ [] := by simp
      rw [joinParts_append hbs hT1, joinParts_append hbs hT2] at h
      exact tail_inj ht1.1 ht2.1 (strictOptSeg_good hp1) (strictOptSeg_good hp2)
        hf1.1 hf2.1 (string_append_left_cancel h)

/-- Witness for the amended C6 at concrete inputs. -/
theorem c6_path_resolver_witness :
    "character" = "character"
    ∧ (some "idle" : Option String) = some "idle"
    ∧ "front.png" = "front.png" :=
  c6_path_resolver_amended.2 (some "s1") "character" "character" "front.png"
    "front.png" (some "idle") (some "idle") (by decide) (by decide) (by decide)
    (by decide) (by decide) (by decide) (by decide)

/-! ## Claim C3 -/

/-- The state after recording the same NULL-keyed ground asset twice. -/
def stNullTwice : SysState :=
  recordAsset "s1" "ground" "ASSETS/s1/ground/ground-texture.png"
    { remoteUrl := some "https://r/g2.png", requestId := some "rq2" }
    (recordAsset "s1" "ground" "ASSETS/s1/ground/ground-texture.png"
      { remoteUrl := some "https://r/g1.png", requestId := some "rq1" }
      st0)

/-- The state after recording the same fully non-NULL-keyed character
asset twice. -/
def stFrontTwice : SysState :=
  recordAsset "s1" "character" "p2"
    { pose := some "idle", viewName := some "front",
      remoteUrl := some "https://r/c2.png", requestId := some "rq2" }
    (recordAsset "s1" "character" "p1"
      { pose := some "idle", viewName := some "front",
        remoteUrl := some "https://r/c1.png", requestId := some "rq1" }
      st0)

/-- The expected surviving row for the non-NULL upsert: the second
write's fields. -/
def rowFront2 : AssetRow :=
  { sessionId := "s1", assetType := "character", pose := some "idle",
    viewName := some "front", filePath := "p2",
    remoteUrl := some "https://r/c2.png", requestId := some "rq2" }

/-- **C3 (code bug).** `recordAsset` relies on `INSERT OR REPLACE`
against `UNIQUE(session_id, asset_type, pose, view_name)` to upsert, but
SQLite's unique indexes treat NULL as distinct from everything, so for a
key with a NULL `pose`/`view_name` (ground textures, 3D models) a repeat
write INSERTS A SECOND ROW instead of replacing the first; for fully
non-NULL keys the upsert behaves as the claim states (one row, second
write's fields winning). Evaluated here at a concrete failing input. -/
theorem c3_upsert_null_duplicates :
    (stNullTwice.assets.filter (fun r =>
        r.sessionId == "s1" && r.assetType == "ground"
          && r.pose == none && r.viewName == none)).length = 2
    ∧ stFrontTwice.assets.filter (fun r =>
        r.sessionId == "s1" && r.assetType == "character"
          && r.pose == some "idle" && r.viewName == some "front")
      = [rowFront2] := by
  exact ⟨by decide, by decide⟩

/-! ## Claim C4 -/

/-- A concrete session row for the C4 evaluation. -/
def sess1 : SessionRow :=
  { id := "s1", characterDescription := "robot scout", modelType := "trellis",
    playerMode := 1, createdAt := "t0", updatedAt := "t0",
    lastAccessed := "t0", gameState := none, metadata := none }

/-- A concrete asset row owned by session `s1`, with its file inside the
session's artifact tree. -/
def rowG : AssetRow :=
  { sessionId := "s1", assetType := "ground", pose := none, viewName := none,
    filePath := "ASSETS/s1/ground/ground-texture.png",
    remoteUrl := some "https://r/g.png", requestId := some "rq1" }

/-- The concrete state the C4 evaluation runs in. -/
def stC4 : SysState :=
  { sessions := [sess1], assets := [rowG], fs := [rowG.filePath] }

/-- **C4 (code bug).** `deleteSession` removes the session row and the
on-disk tree, and `assetExists` subsequently reports absent (its
filesystem validation fails) — but the session's `assets` rows are NOT
removed: `schema.sql` declares `ON DELETE CASCADE`, yet `db.js` never
executes `PRAGMA foreign_keys = ON`, which SQLite requires for any
foreign-key enforcement, so the cascade never runs. Evaluated at a
concrete failing input: the asset row survives the delete. -/
theorem c4_cascade_not_enforced :
    (deleteSession "s1" stC4).sessions = []
    ∧ (deleteSession "s1" stC4).fs = []
    ∧ (deleteSession "s1" stC4).assets = [rowG]
    ∧ assetExists "s1" "ground" none none (deleteSession "s1" stC4) = none := by
  exact ⟨by decide, by decide, by decide, by decide⟩

/-! ## Claim C5 -/

/-- **C5.** When the 3D model is not already cached, the generation
call proceeds to the provider, and the image list sent is truncated to
the provider's ceiling: the first 6 URLs for `trellis`, the first 5 for
any other provider; oversupply is not an error. -/
theorem c5_provider_ceiling_truncation :
    ∀ (imageUrls : List String) (pose modelType : String) (sid : Option String)
      (prov : ProviderMesh) (st : SysState),
      fsHas st (getAssetPath sid "models"
        none (some ("character_" ++ pose ++ ".glb"))) = false →
      ((modelType = "trellis" → 6 < imageUrls.length →
        (generate3DModel imageUrls pose modelType sid prov st).sentImages
          = some (imageUrls.take 6))
      ∧ (modelType ≠ "trellis" → 5 < imageUrls.length →
        (generate3DModel imageUrls pose modelType sid prov st).sentImages
          = some (imageUrls.take 5))
      ∧ (generate3DModel imageUrls pose modelType sid prov st).providerCalled = true) := by
  intro imageUrls pose modelType sid prov st hmiss
  refine ⟨?_, ?_, ?_⟩
  · intro hmt hlen
    by_cases hok : prov.ok = true
    · cases hm : prov.meshUrl with
      | none => simp [generate3DModel, hmiss, hmt, hlen, hok, hm]
      | some meshUrl =>
        by_cases hsid : truthy sid = true <;>
          simp [generate3DModel, hmiss, hmt, hlen, hok, hm, hsid]
    · simp only [Bool.not_eq_true] at hok
      simp [generate3DModel, hmiss, hmt, hlen, hok]
  · intro hmt hlen
    by_cases hok : prov.ok = true
    · cases hm : prov.meshUrl with
      | none => simp [generate3DModel, hmiss, hmt, hlen, hok, hm]
      | some meshUrl =>
        by_cases hsid : truthy sid = true <;>
          simp [generate3DModel, hmiss, hmt, hlen, hok, hm, hsid]
    · simp only [Bool.not_eq_true] at hok
      simp [generate3DModel, hmiss, hmt, hlen, hok]
  · by_cases hok : prov.ok = true
    · cases hm : prov.meshUrl with
      | none => simp [generate3DModel, hmiss, hok, hm]
      | some meshUrl =>
        by_cases hsid : truthy sid = true <;>
          simp [generate3DModel, hmiss, hok, hm, hsid]
    · simp only [Bool.not_eq_true] at hok
      simp [generate3DModel, hmiss, hok]

/-- Witness for C5: 7 URLs under `trellis` are truncated to the first 6,
and 6 under `rodin` to the first 5, at concrete inputs. -/
theorem c5_provider_ceiling_truncation_witness :
    (generate3DModel ["u1", "u2", "u3", "u4", "u5", "u6", "u7"] "idle" "trellis"
        (some "s1") pmOk st0).sentImages
      = some ["u1", "u2", "u3", "u4", "u5", "u6"]
    ∧ (generate3DModel ["u1", "u2", "u3", "u4", "u5", "u6"] "idle" "rodin"
        (some "s1") pmOk st0).sentImages
      = some ["u1", "u2", "u3", "u4", "u5"] := by
  have h1 := c5_provider_ceiling_truncation ["u1", "u2", "u3", "u4", "u5", "u6", "u7"]
    "idle" "trellis" (some "s1") pmOk st0 (by decide)
  have h2 := c5_provider_ceiling_truncation ["u1", "u2", "u3", "u4", "u5", "u6"]
    "idle" "rodin" (some "s1") pmOk st0 (by decide)
  exact ⟨h1.1 (by decide) (by decide), h2.2.1 (by decide) (by decide)⟩

/-! ## Claim C8 -/

/-- A state in which `character/dancing/front.png` already exists,
reached by a successful legacy `generate-character` call with the
(unvalidated) pose `dancing`. -/
def stDancing : SysState := (generateCharacter "dancing" none pvOk st0).st

/-- **C8 counterexample.** The cached-artifact check precedes all input
validation: with `character/dancing/front.png` on disk (reachable via
`generate-character`, which never validates the pose name),
`generate-pose` for the unknown pose `dancing` returns a SUCCESS
response (`cached = true`) instead of the claimed error — though still
without any provider call. -/
theorem c8_cached_unknown_pose_counterexample :
    posePrompts "dancing" = none
    ∧ (generateCharacter "dancing" none pvOk st0).resp.success = true
    ∧ (generatePose "dancing" none pvOk stDancing).resp.success = true
    ∧ (generatePose "dancing" none pvOk stDancing).resp.cached = true
    ∧ (generatePose "dancing" none pvOk stDancing).providerCalled = false := by
  exact ⟨by decide, by decide, by decide, by decide, by decide⟩

/-- **C8 amended.** Provided the requested artifact is not already on
disk, every listed input-constraint violation — unknown target pose,
unknown (pose, view) pair, missing idle-front prerequisite — returns an
error response with no provider call; when the artifact file already
exists, the request instead short-circuits to the cached success, still
with no provider call. -/
theorem c8_eager_validation_amended :
    (∀ (targetPose : String) (sid : Option String) (prov : ProviderImage)
        (st : SysState),
      fsHas st (getAssetPath sid "character" (some targetPose) (some "front.png")) = false →
      posePrompts targetPose = none →
      (generatePose targetPose sid prov st).resp.success = false
      ∧ (generatePose targetPose sid prov st).providerCalled = false)
    ∧ (∀ (pose viewName : String) (sid : Option String) (prov : ProviderImage)
        (st : SysState),
      fsHas st (getAssetPath sid "character" (some pose) (some (viewName ++ ".png"))) = false →
      viewPrompts pose viewName = none →
      (generateView pose viewName sid prov st).resp.success = false
      ∧ (generateView pose viewName sid prov st).providerCalled = false)
    ∧ (∀ (targetPose : String) (sid : Option String) (prov : ProviderImage)
        (st : SysState),
      fsHas st (getAssetPath sid "character" (some targetPose) (some "front.png")) = false →
      fsHas st (getAssetPath sid "character" (some "idle") (some "front.png")) = false →
      fsHas st (getAssetPath none "character" (some "idle") (some "front.png")) = false →
      (generatePose targetPose sid prov st).resp.success = false
      ∧ (generatePose targetPose sid prov st).providerCalled = false)
    ∧ (∀ (targetPose : String) (sid : Option String) (prov : ProviderImage)
        (st : SysState),
      fsHas st (getAssetPath sid "character" (some targetPose) (some "front.png")) = true →
      (generatePose targetPose sid prov st).resp.success = true
      ∧ (generatePose targetPose sid prov st).resp.cached = true
      ∧ (generatePose targetPose sid prov st).providerCalled = false) := by
  refine ⟨?_, ?_, ?_, ?_⟩
  · intro targetPose sid prov st hc hp
    by_cases hpre : (!fsHas st (getAssetPath sid "character" (some "idle") (some "front.png"))
        && !fsHas st (getAssetPath none "character" (some "idle") (some "front.png"))) = true
    · simp [generatePose, hc, hpre]
    · simp [generatePose, hc, hpre, hp]
  · intro pose viewName sid prov st hc hp
    simp [generateView, hc, hp]
  · intro targetPose sid prov st hc hi hl
    simp [generatePose, hc, hi, hl]
  · intro targetPose sid prov st hc
    simp [generatePose, hc]

/-- Witness for the amended C8 at concrete inputs. -/
theorem c8_eager_validation_witness :
    ((generatePose "dancing" none pvOk st0).resp.success = false
      ∧ (generatePose "dancing" none pvOk st0).providerCalled = false)
    ∧ ((generateView "idle" "front" none pvOk st0).resp.success = false
      ∧ (generateView "idle" "front" none pvOk st0).providerCalled = false)
    ∧ ((generatePose "walking" none pvOk st0).resp.success = false
      ∧ (generatePose "walking" none pvOk st0).providerCalled = false)
    ∧ ((generatePose "dancing" none pvOk stDancing).resp.success = true
      ∧ (generatePose "dancing" none pvOk stDancing).resp.cached = true
      ∧ (generatePose "dancing" none pvOk stDancing).providerCalled = false) := by
  refine ⟨?_, ?_, ?_, ?_⟩
  · exact c8_eager_validation_amended.1 "dancing" none pvOk st0 (by decide) (by decide)
  · exact c8_eager_validation_amended.2.1 "idle" "front" none pvOk st0 (by decide) (by decide)
  · exact c8_eager_validation_amended.2.2.1 "walking" none pvOk st0 (by decide)
      (by decide) (by decide)
  · exact c8_eager_validation_amended.2.2.2 "dancing" none pvOk stDancing (by decide)

/-! ## Claim C9 -/

/-- A concrete store with one session whose `last_accessed` is `t0`. -/
def stC9 : SysState := { sessions := [sess1], assets := [], fs := [] }

/-- **C9 counterexample.** `sessionExists` and `getSessionAssets` are
bare SELECTs: they return the store exactly unchanged, so the session's
`last_accessed` stays at its old value `t0` no matter when the read
happens — contradicting the claim that every read of the session's row
bumps `last_accessed` to the read time. -/
theorem c9_read_bump_counterexample :
    (sessionExists "s1" stC9).1 = true
    ∧ (sessionExists "s1" stC9).2 = stC9
    ∧ (getSessionAssets "s1" stC9).2 = stC9
    ∧ stC9.sessions.map SessionRow.lastAccessed = ["t0"] := by
  exact ⟨by decide, by decide, by decide, by decide⟩

lemma map_id_of_preserves {f : SessionRow → SessionRow}
    (hf : ∀ q, (f q).id = q.id) (l : List SessionRow) :
    (l.map f).map SessionRow.id = l.map SessionRow.id := by
  induction l with
  | nil => rfl
  | cons a t ih => simp [hf a, ih]

/-- **C9 amended.** The session id is never modified by any operation
(`getSession`, `updateSession`, `sessionExists`, `getSessionAssets`,
`recordAsset` all preserve the list of session ids); `getSession` bumps
the found session's `last_accessed` to the read time, while
`sessionExists` and `getSessionAssets` are pure reads that leave the
store — `last_accessed` included — entirely unchanged. -/
theorem c9_session_reads_amended :
    (∀ (sid now : String) (st : SysState),
      (getSession sid now st).2.sessions.map SessionRow.id
        = st.sessions.map SessionRow.id)
    ∧ (∀ (sid : String) (g m : Option String) (now : String) (st : SysState),
      (updateSession sid g m now st).2.sessions.map SessionRow.id
        = st.sessions.map SessionRow.id)
    ∧ (∀ (sid : String) (st : SysState), (sessionExists sid st).2 = st)
    ∧ (∀ (sid : String) (st : SysState), (getSessionAssets sid st).2 = st)
    ∧ (∀ (sid assetType path : String) (m : AssetMeta) (st : SysState),
      (recordAsset sid assetType path m st).sessions = st.sessions)
    ∧ (∀ (sid now : String) (st : SysState) (r : SessionRow),
      st.sessions.find? (fun q => q.id == sid) = some r →
      ∀ q ∈ (getSession sid now st).2.sessions, q.id = sid →
        q.lastAccessed = now) := by
  refine ⟨?_, ?_, ?_, ?_, ?_, ?_⟩
  · intro sid now st
    cases h : st.sessions.find? (fun q => q.id == sid) with
    | none => unfold getSession; rw [h]
    | some r =>
      unfold getSession
      rw [h]
      dsimp only
      exact map_id_of_preserves
        (fun q => by by_cases hq : q.id = sid <;> simp [hq]) _
  · intro sid g m now st
    cases g with
    | none =>
      cases m with
      | none => rfl
      | some mv =>
        unfold updateSession
        rw [if_neg (by simp)]
        dsimp only
        exact map_id_of_preserves
          (fun q => by by_cases hq : q.id = sid <;> simp [hq]) _
    | some gv =>
      unfold updateSession
      rw [if_neg (by simp)]
      dsimp only
      exact map_id_of_preserves
        (fun q => by by_cases hq : q.id = sid <;> simp [hq]) _
  · intro sid st; rfl
  · intro sid st; rfl
  · intro sid assetType path m st; rfl
  · intro sid now st r hfind q hq hqid
    unfold getSession at hq
    rw [hfind] at hq
    dsimp only at hq
    rcases List.mem_map.1 hq with ⟨a, _, rfl⟩
    by_cases had : a.id = sid
    · simp [had]
    · have hb : ¬((a.id == sid) = true) := by simpa using had
      rw [if_neg hb] at hqid
      exact absurd hqid had

/-- Witness for the amended C9 at concrete inputs: the read bumps
`last_accessed` of the found row, and `sessionExists` leaves the store
unchanged. -/
theorem c9_session_reads_witness :
    ({ sess1 with lastAccessed := "t1" } : SessionRow).lastAccessed = "t1"
    ∧ (sessionExists "s1" stC9).2 = stC9 := by
  refine ⟨?_, c9_session_reads_amended.2.2.1 "s1" stC9⟩
  exact c9_session_reads_amended.2.2.2.2.2 "s1" "t1" stC9 sess1 (by decide)
    ({ sess1 with lastAccessed := "t1" }) (by decide) (by decide)

/-! ## Claim C10 -/

/-- **C10.** `updateSession` with an updates object containing neither
`gameState` nor `metadata` is a complete no-op: it executes no database
statement and the store — every session field, `updated_at` included —
is unchanged. -/
theorem c10_update_session_noop :
    ∀ (sid now : String) (st : SysState),
      updateSession sid none none now st = (false, st) := by
  intro sid now st
  rfl

end TerminalFlux
